import Mathlib

/-!
Shallow embedding of the MOF_DOE_Data scrapers (Department of Expenditure site
scrapers) and proofs about their pagination, download, extraction and CSV-saving
logic.

Each scraper is a Python class; the parts relevant to the verified properties are
translated here as pure functions.  Browser state is modelled explicitly: the
current URL, the page DOM (tables, pagination controls, candidate content
containers) as functions of the URL, the filesystem as an association list from
paths to file bodies, and the network as a function from URL to a fetch result.
Python string operations are re-implemented over character lists so that every
definition evaluates inside the kernel.
-/

namespace MOFDOE

/-- URLs are strings. -/
abbrev Url := String

/-! ### String helpers (models of the Python string operations used) -/

/-- Model of Python str.lower for the ASCII strings handled by the scrapers. -/
def strToLower (s : String) : String :=
  String.mk (s.data.map Char.toLower)

/-- Model of Python str.endswith. -/
def strEndsWith (s suf : String) : Bool :=
  List.isSuffixOf suf.data s.data

/-- Model of Python str.startswith. -/
def strStartsWith (s pre : String) : Bool :=
  List.isPrefixOf pre.data s.data

/-- Model of Python str.split(c) for a one-character separator. -/
def splitOnChar (c : Char) (s : String) : List String :=
  (s.data.splitOnP (fun d => d == c)).map String.mk

/-- Model of Python url.split("?")[0]: everything before the first question mark. -/
def stripQuery (s : String) : String :=
  (splitOnChar '?' s).headD s

/-- Everything before the first hash sign (urlparse drops the fragment). -/
def stripFragment (s : String) : String :=
  (splitOnChar '#' s).headD s

/-- Model of os.path.basename: the part after the last slash. -/
def basename (s : String) : String :=
  (splitOnChar '/' s).getLastD s

/-- Model of Python "sep".join(parts). -/
def strJoinSep (sep : String) : List String → String
  | [] => ""
  | [x] => x
  | x :: xs => x ++ sep ++ strJoinSep sep xs

/-- Model of Python str.strip() (whitespace trim). -/
def strTrim (s : String) : String :=
  String.mk (((s.data.dropWhile Char.isWhitespace).reverse.dropWhile
    Char.isWhitespace).reverse)

/-- Helper for afterSchemeData: drop characters up to and including "://". -/
def afterSchemeData : List Char → Option (List Char)
  | [] => none
  | ':' :: '/' :: '/' :: rest => some rest
  | _ :: rest => afterSchemeData rest

/-- Model of urllib.parse.urlparse(url).path for the URL shapes the scrapers
handle: for an absolute URL the part from the first slash after the host up to
the query or fragment; for a scheme-less string the string itself up to the
query or fragment. -/
def urlPath (u : String) : String :=
  let p := match afterSchemeData u.data with
    | some rest => String.mk (rest.dropWhile (fun c => c != '/'))
    | none => u
  stripQuery (stripFragment p)

/-- Base origin shared by every scraper (BASE_URL in each source file). -/
def BASE_URL : String := "https://doe.gov.in"

/-- Model of urllib.parse.urljoin(BASE_URL, href) for the href shapes occurring
on the site: an absolute http(s) URL is kept as is, a site-relative href is
appended to the base origin. -/
def urljoinBase (href : String) : String :=
  if strStartsWith href "http://" || strStartsWith href "https://" then href
  else if strStartsWith href "/" then BASE_URL ++ href
  else BASE_URL ++ "/" ++ href

/-! ### Filesystem and network models -/

/-- The downloads directory as an association list from path to file body.
Later writes are consed to the front. -/
abbrev FS := List (String × String)

/-- Model of os.path.exists. -/
def fsExists (fs : FS) (p : String) : Bool :=
  fs.any (fun e => e.1 == p)

/-- Model of open(path, "wb").write(body). -/
def fsWrite (fs : FS) (p body : String) : FS :=
  (p, body) :: fs

/-- Read back a written file (used only to state what a download stored). -/
def fsRead (fs : FS) (p : String) : Option String :=
  (fs.find? (fun e => e.1 == p)).map (fun e => e.2)

/-- Outcome of requests.get: a status code with a body, or a raised transport
error (connection failure, timeout).  The fetch is modelled as atomic. -/
inductive FetchResult where
  | ok (status : Nat) (body : String)
  | err
deriving DecidableEq

/-- The network, as an oracle from URL to fetch outcome. -/
abbrev Net := Url → FetchResult

/-- Model of os.path.join(PDF_DIR, filename). -/
def pathJoin (d f : String) : String := d ++ "/" ++ f

/-- PDF_DIR constant shared by the scrapers. -/
def PDF_DIR : String := "pdfs"

/-! ### Asset downloaders -/

/-- Result of one downloader invocation: the filesystem afterwards, the local
path recorded for the row (empty when nothing was linked), and how many network
fetches were performed. -/
structure DlOutcome where
  fs : FS
  localPath : String
  netCalls : Nat
deriving DecidableEq

/-- Destination filename in rec_scraper.download_pdfs line 148:
os.path.basename(pdf_url.split("?")[0]).  The same expression appears in
grants_scraper, manuals_scraper, rti_scraper, annualrep_scraper and
summary_scraper. -/
def recDestFilename (pdfUrl : String) : String :=
  basename (stripQuery pdfUrl)

/-- Loop body of rec_scraper.download_pdfs (lines 145-163) for a single row.
The row enters with local path curPath (always "" after extraction); the guard,
the existing-file skip, the 200-only write and the swallow-all exception handler
are translated directly. -/
def rec_download_row (net : Net) (fs : FS) (pdfUrl curPath : String) : DlOutcome :=
  if (pdfUrl != "") && strEndsWith (strToLower pdfUrl) ".pdf" then
    let localPath := pathJoin PDF_DIR (recDestFilename pdfUrl)
    if !(fsExists fs localPath) then
      match net pdfUrl with
      | .ok status body =>
        if status == 200 then ⟨fsWrite fs localPath body, localPath, 1⟩
        else ⟨fs, curPath, 1⟩
      | .err => ⟨fs, curPath, 1⟩
    else ⟨fs, localPath, 0⟩
  else ⟨fs, curPath, 0⟩

/-- The pdf-related fields of a rec_scraper row during the download pass. -/
structure RecDlRow where
  pdf_url : String
  local_pdf_path : String
deriving DecidableEq

/-- rec_scraper.download_pdfs lines 143-163: iterate over the collected rows,
threading the filesystem, mutating each row local path, counting fetches. -/
def rec_download_pdfs (net : Net) : FS → List RecDlRow → FS × List RecDlRow × Nat
  | fs, [] => (fs, [], 0)
  | fs, row :: rest =>
    let step := rec_download_row net fs row.pdf_url row.local_pdf_path
    let r := rec_download_pdfs net step.fs rest
    (r.1, { row with local_pdf_path := step.localPath } :: r.2.1,
      step.netCalls + r.2.2)

/-- Characters kept verbatim by the regex character class [A-Za-z0-9_-] used in
proc_scraper (line 141) and by the \w - class in auto_scraper.slugify. -/
def keepWordChar (c : Char) : Bool :=
  c.isAlphanum || c == '_' || c == '-'

/-- Model of re.sub(r"[^A-Za-z0-9_-]+", "_", s): every maximal run of dropped
characters becomes a single underscore. -/
def subNonWordRuns (s : String) : String :=
  let step := fun (acc : List Char × Bool) (c : Char) =>
    if keepWordChar c then (acc.1 ++ [c], false)
    else if acc.2 then acc
    else (acc.1 ++ ['_'], true)
  String.mk (s.data.foldl step ([], false)).1

/-- Model of re.sub(r"_+", "_", s): collapse underscore runs. -/
def collapseUnderscoreRuns (s : String) : String :=
  let step := fun (acc : List Char × Bool) (c : Char) =>
    if c == '_' then (if acc.2 then acc else (acc.1 ++ ['_'], true))
    else (acc.1 ++ [c], false)
  String.mk (s.data.foldl step ([], false)).1

/-- Model of str.strip("_"). -/
def stripUnderscores (s : String) : String :=
  String.mk (((s.data.dropWhile (fun c => c == '_')).reverse.dropWhile
    (fun c => c == '_')).reverse)

/-- auto_scraper.slugify lines 113-117 (ASCII fragment of the \w class). -/
def slugify (text : String) : String :=
  let t := subNonWordRuns (strTrim text)
  let t := stripUnderscores (collapseUnderscoreRuns t)
  if t == "" then "file" else t

/-- Destination base name in proc_scraper.download_pdf lines 135-144:
basename of the URL path, "document.pdf" when empty, a forced .pdf suffix, and
an optional sanitised disambiguating front tag. -/
def proc_base_name (url pre : String) : String :=
  let b0 := basename (urlPath url)
  let b1 := if b0 == "" then "document.pdf" else b0
  let b2 := if strEndsWith (strToLower b1) ".pdf" then b1 else b1 ++ ".pdf"
  if pre != "" then subNonWordRuns (strTrim pre) ++ "_" ++ b2 else b2

/-- proc_scraper.download_pdf lines 130-159.  The whole body runs inside one
try block: raise_for_status raises on a 4xx or 5xx status, and any raised error
is caught, logged, and turned into an empty return with no write.  The streamed
write is modelled as atomic. -/
def proc_download_pdf (net : Net) (fs : FS) (url pre : String) : DlOutcome :=
  let localPath := pathJoin PDF_DIR (proc_base_name url pre)
  if fsExists fs localPath then ⟨fs, localPath, 0⟩
  else
    match net url with
    | .ok status body =>
      if 400 ≤ status ∧ status < 600 then ⟨fs, "", 1⟩
      else ⟨fsWrite fs localPath body, localPath, 1⟩
    | .err => ⟨fs, "", 1⟩

/-- Destination filename in auto_scraper.download_pdf lines 124-125. -/
def auto_dest_filename (listing_type memo_no : String) : String :=
  "autonomous_bodies_" ++ listing_type ++ "_" ++
    slugify (if memo_no == "" then "memo" else memo_no) ++ ".pdf"

/-- auto_scraper.download_pdf lines 119-140: empty-URL no-op, existing-file
skip, raise_for_status on a 4xx or 5xx status, swallow-all error handling. -/
def auto_download_pdf (net : Net) (fs : FS) (pdf_url memo_no listing_type : String) :
    DlOutcome :=
  if pdf_url == "" then ⟨fs, "", 0⟩
  else
    let localPath := pathJoin PDF_DIR (auto_dest_filename listing_type memo_no)
    if fsExists fs localPath then ⟨fs, localPath, 0⟩
    else
      match net pdf_url with
      | .ok status body =>
        if 400 ≤ status ∧ status < 600 then ⟨fs, "", 1⟩
        else ⟨fsWrite fs localPath body, localPath, 1⟩
      | .err => ⟨fs, "", 1⟩

/-! ### Table extraction (rec_scraper.extract_table, rti_scraper.extract_table) -/

/-- One tbody tr as the extractors see it: the stripped td texts, the href of
the first anchor matching a[href$=.pdf] in the row, and the href of the first
anchor matching a[href^=http] (used only by rti_scraper). -/
structure TableRow where
  cells : List String
  pdfHref : Option String
  httpHref : Option String
deriving DecidableEq

/-- A parsed table: the thead th texts and the tbody rows. -/
structure HtmlTable where
  headerCells : List String
  bodyRows : List TableRow
deriving DecidableEq

/-- Lookup in the Python dict built by dict(zip(headers, cells)) with default
"" (row_data.get(h, "")).  zip truncates to the shorter list; a repeated header
keeps its last cell, as the dict is filled left to right. -/
def dictZipGet (headers cells : List String) (key : String) : String :=
  match (List.zip headers cells).reverse.find? (fun p => p.1 == key) with
  | some p => p.2
  | none => ""

/-- Title derivation in rec_scraper.extract_table line 82:
row_data.get("Title") or (cells[1] if len(cells) > 1 else "Untitled").
A missing key and an empty string are both falsy in Python. -/
def rec_row_title (headers cells : List String) : String :=
  let t0 := dictZipGet headers cells "Title"
  if t0 != "" then t0
  else match cells.get? 1 with
    | some c => c
    | none => "Untitled"

/-- Content string in rec_scraper.extract_table line 87. -/
def rec_row_content (headers cells : List String) : String :=
  strJoinSep " | " (headers.map (fun h => h ++ ": " ++ dictZipGet headers cells h))

/-- Fallback header list in rec_scraper.extract_table line 74 (also
manuals_scraper line 57). -/
def recDefaultHeaders : List String := ["Sr.No", "Title", "Date", "Download"]

/-- Fallback header list in rti_scraper.extract_table line 104. -/
def rtiDefaultHeaders : List String := ["Sr.No", "Title", "Date", "Download", "Hyperlink"]

/-- Headers chosen by rec_scraper.extract_table lines 72-74. -/
def recHeadersFor (t : HtmlTable) : List String :=
  if t.headerCells.isEmpty then recDefaultHeaders else t.headerCells

/-- Headers chosen by rti_scraper.extract_table lines 102-104. -/
def rtiHeadersFor (t : HtmlTable) : List String :=
  if t.headerCells.isEmpty then rtiDefaultHeaders else t.headerCells

/-- A record appended by the table extractors (META_FIELDS order of
rec_scraper). -/
structure RecRecord where
  section_type : String
  section_name : String
  element_type : String
  title : String
  content : String
  url : String
  pdf_url : String
  local_pdf_path : String
deriving DecidableEq

/-- rec_scraper.extract_table lines 67-98: soup.select_one("table") is the
Option argument; header fallback; one record per non-empty row; pdf link
resolution against the base URL. -/
def rec_extract_table (tbl : Option HtmlTable) (section_name page_url : String) :
    List RecRecord :=
  match tbl with
  | none => []
  | some t =>
    let headers := recHeadersFor t
    t.bodyRows.filterMap (fun tr =>
      if tr.cells.isEmpty then none
      else some
        { section_type := "Table"
          section_name := section_name
          element_type := "Row"
          title := rec_row_title headers tr.cells
          content := rec_row_content headers tr.cells
          url := page_url
          pdf_url := match tr.pdfHref with
            | some h => urljoinBase h
            | none => ""
          local_pdf_path := "" })

/-- rti_scraper.extract_table lines 97-133: same shape as rec_scraper plus the
raw first http anchor appended to the content string when present. -/
def rti_extract_table (tbl : Option HtmlTable) (section_name page_url : String) :
    List RecRecord :=
  match tbl with
  | none => []
  | some t =>
    let headers := rtiHeadersFor t
    t.bodyRows.filterMap (fun tr =>
      if tr.cells.isEmpty then none
      else
        let hyperlink := match tr.httpHref with
          | some h => h
          | none => ""
        let base := rec_row_content headers tr.cells
        some
          { section_type := "Table"
            section_name := section_name
            element_type := "Row"
            title := rec_row_title headers tr.cells
            content := if hyperlink != "" then base ++ " | Hyperlink: " ++ hyperlink
              else base
            url := page_url
            pdf_url := match tr.pdfHref with
              | some h => urljoinBase h
              | none => ""
            local_pdf_path := "" })

/-! ### Narrative-mode container selection (ocac_scraper.find_main_content) -/

/-- A DOM element considered as a content container; only its extracted text
matters to the selection. -/
structure Container where
  text : String
deriving DecidableEq

/-- Loop body of ocac_scraper.find_main_content lines 191-197: the accumulator
holds the best container so far and its text length (best, best_len), updated
when the candidate has truthy text strictly longer than best_len. -/
def fmcStep (acc : Option Container × Nat) (cand : Container) :
    Option Container × Nat :=
  if cand.text ≠ "" ∧ acc.2 < cand.text.length then (some cand, cand.text.length)
  else acc

/-- ocac_scraper.find_main_content lines 174-204.  The argument is the list of
soup.select(sel) result lists, one per candidate selector, in selector order;
the nested for loops scan their concatenation in order. -/
def find_main_content (candLists : List (List Container)) : Option Container :=
  ((candLists.flatten).foldl fmcStep (none, 0)).1

/-- Greatest extracted-text length over a candidate list. -/
def maxTextLen (cs : List Container) : Nat :=
  cs.foldr (fun c m => max c.text.length m) 0

/-! ### CSV saving (ocac_scraper.save, rec_scraper.save_csv) -/

/-- A collected row as the Python dict it is: field-value pairs in insertion
order. -/
abbrev PyRow := List (String × String)

/-- Value a rendered CSV cell gets for field c of row r: the stored value when
the field is present (a repeated key keeps its last assignment, as in a dict),
and the empty string otherwise (pandas fills a missing column entry with NaN,
which to_csv renders as an empty cell). -/
def fieldVal (r : PyRow) (c : String) : String :=
  match r.reverse.find? (fun p => p.1 == c) with
  | some p => p.2
  | none => ""

/-- Leading metadata columns in ocac_scraper.save lines 298-304 (identical in
pfd_scraper.save). -/
def ocacMetaLeft : List String :=
  ["section_type", "section_name", "element_type", "title", "content"]

/-- Trailing url and asset columns in ocac_scraper.save lines 305-311. -/
def ocacMetaRight : List String :=
  ["url", "image_url", "pdf_url", "local_image_path", "local_pdf_path"]

/-- final_cols in ocac_scraper.save line 312: fixed leading metadata, then the
page-specific table headers, then fixed trailing url and asset fields. -/
def ocacFinalCols (tableHeaders : List String) : List String :=
  ocacMetaLeft ++ tableHeaders ++ ocacMetaRight

/-- ocac_scraper.save lines 289-324 (pfd_scraper.save lines 247-281 is
identical): skip with a notice when no rows were collected; otherwise reindex
every row to final_cols, filling absent fields with the empty string.  The
result is the header row paired with the data rows; none models the skipped
write. -/
def ocac_save (tableHeaders : List String) (rows : List PyRow) :
    Option (List String × List (List String)) :=
  if rows.isEmpty then none
  else
    let cols := ocacFinalCols tableHeaders
    some (cols, rows.map (fun r => cols.map (fun c => fieldVal r c)))

/-- META_FIELDS of rec_scraper lines 28-31. -/
def recMETA_FIELDS : List String :=
  ["section_type", "section_name", "element_type", "title", "content",
   "url", "pdf_url", "local_pdf_path"]

/-- rec_scraper.save_csv lines 166-171: pd.DataFrame(rows, columns=META_FIELDS)
written unconditionally - there is no zero-row guard, so an empty run still
produces a (header-only) CSV file. -/
def rec_save_csv (rows : List PyRow) : Option (List String × List (List String)) :=
  some (recMETA_FIELDS, rows.map (fun r => recMETA_FIELDS.map (fun c => fieldVal r c)))

/-! ### Defensive page loading (safe_get) -/

/-- Outcome of driver.get(url): normal completion, a selenium TimeoutException,
or any other raised navigation error (a non-timeout WebDriverException such as
a name-resolution failure or a crashed tab). -/
inductive NavOutcome where
  | success
  | timeout
  | otherError
deriving DecidableEq

/-- Observable result of one safe_get call: whether an exception escaped to the
caller, and whether window.stop() was executed to cancel the load. -/
structure SafeGetResult where
  raised : Bool
  stopCalled : Bool
deriving DecidableEq

/-- ocac_scraper.safe_get lines 100-132 (rec_scraper.safe_get lines 59-64 has
the same catch structure).  Only TimeoutException is caught around driver.get;
in that branch window.stop() cancels the navigation and the partial document is
accepted.  The readyState polling loop swallows every exception and the
WebDriverWait catches its TimeoutException, so the readyReached and
contentFound outcomes never raise and never change what the caller sees; any
other exception from driver.get propagates. -/
def ocac_safe_get (nav : NavOutcome) (readyReached contentFound : Bool) :
    SafeGetResult :=
  match nav with
  | .success =>
    let _ := readyReached
    let _ := contentFound
    { raised := false, stopCalled := false }
  | .timeout => { raised := false, stopCalled := true }
  | .otherError => { raised := true, stopCalled := false }

/-! ### Pagination -/

/-- The next-page control as the pagination loops see it: its class attribute
split into class names, and the href attribute (an absent attribute and an
empty href are both falsy in Python and are modelled as ""). -/
structure NextBtn where
  classes : List String
  href : String
deriving DecidableEq

/-- A target page set, as functions of the current URL: the next-page control
matched by li.pager__item--next a (none when find_element raises), the first
table on the page, and the href of an archive link on the page if any. -/
structure Site where
  nextOf : Url → Option NextBtn
  tableOf : Url → Option HtmlTable
  archiveOf : Url → Option String

/-- Result of one pagination run: which page URLs were extracted in order, how
many safe_get fetches the loop performed, and whether the loop reached a break
(false means the fuel ran out while the loop still wanted to continue). -/
structure PagRun where
  pages : List Url
  fetches : Nat
  halted : Bool
deriving DecidableEq

/-- rec_scraper.handle_pagination lines 101-122 (manuals_scraper and
rti_scraper are identical): a VisitedSet guards the top of the loop; the body
extracts, then follows an enabled next control with a non-empty href via
safe_get.  After safe_get(next_href) the browser current URL is next_href.
Fuel only bounds the recursion depth of the model. -/
def rec_handle_pagination (site : Site) : Nat → Url → List Url → PagRun
  | 0, _, _ => ⟨[], 0, false⟩
  | fuel + 1, current, visited =>
    if visited.contains current then ⟨[], 0, true⟩
    else
      match site.nextOf current with
      | none => ⟨[current], 0, true⟩
      | some btn =>
        if btn.classes.contains "is-disabled" then ⟨[current], 0, true⟩
        else if btn.href == "" then ⟨[current], 0, true⟩
        else
          let r := rec_handle_pagination site fuel btn.href (current :: visited)
          ⟨current :: r.pages, r.fetches + 1, r.halted⟩

/-- grants_scraper.handle_pagination lines 93-112 (annualrep_scraper and
summary_scraper share the shape): there is no VisitedSet at all.  The selector
li.pager__item--next:not(.is-disabled) a yields no element for a disabled
control, which the model folds into the disabled check; otherwise the loop
unconditionally fetches next_href and continues. -/
def grants_handle_pagination (site : Site) : Nat → Url → PagRun
  | 0, _ => ⟨[], 0, false⟩
  | fuel + 1, page_url =>
    match site.nextOf page_url with
    | none => ⟨[page_url], 0, true⟩
    | some btn =>
      if btn.classes.contains "is-disabled" then ⟨[page_url], 0, true⟩
      else
        let r := grants_handle_pagination site fuel btn.href
        ⟨page_url :: r.pages, r.fetches + 1, r.halted⟩

/-- The synthetic misbehaving pager of the termination property: every page
offers an enabled next control whose target is the fixed URL u0. -/
def reofferSite (u0 : Url) : Site :=
  { nextOf := fun _ => some { classes := [], href := u0 }
    tableOf := fun _ => none
    archiveOf := fun _ => none }

/-! ### Run-level event traces (order of fetching, downloading and saving) -/

/-- Externally visible events of a run: a browser page fetch, a network fetch
of an asset, and the CSV write. -/
inductive Ev where
  | fetchPage (u : Url)
  | downloadAsset (u : Url)
  | writeCsv
deriving DecidableEq

/-- Trace-level result of a pagination run: the events, the collected records,
the URL the browser is left on, and the halt flag. -/
structure PagTrace where
  events : List Ev
  rows : List RecRecord
  finalUrl : Url
  halted : Bool
deriving DecidableEq

/-- rec_scraper.handle_pagination again, now recording its extracted rows and
the fetchPage event of each safe_get(next_href). -/
def rec_handle_pagination_tr (site : Site) (section_name : String) :
    Nat → Url → List Url → PagTrace
  | 0, current, _ => ⟨[], [], current, false⟩
  | fuel + 1, current, visited =>
    if visited.contains current then ⟨[], [], current, true⟩
    else
      let rows := rec_extract_table (site.tableOf current) section_name current
      match site.nextOf current with
      | none => ⟨[], rows, current, true⟩
      | some btn =>
        if btn.classes.contains "is-disabled" then ⟨[], rows, current, true⟩
        else if btn.href == "" then ⟨[], rows, current, true⟩
        else
          let r := rec_handle_pagination_tr site section_name fuel btn.href
            (current :: visited)
          ⟨Ev.fetchPage btn.href :: r.events, rows ++ r.rows, r.finalUrl, r.halted⟩

/-- PAGE_PATH of rec_scraper. -/
def recPAGE_PATH : String := "/recruitment-rules"

/-- rec_scraper.scrape_main_and_archive lines 125-140: fetch and paginate the
main section, then look for an archive link on the page the browser ended on
and, when found, fetch and paginate the archive section. -/
def rec_scrape_main_and_archive (site : Site) (fuel : Nat) :
    List Ev × List RecRecord :=
  let mainUrl := urljoinBase recPAGE_PATH
  let t1 := rec_handle_pagination_tr site "Main Section" fuel mainUrl []
  let evs1 := Ev.fetchPage mainUrl :: t1.events
  match site.archiveOf t1.finalUrl with
  | some href =>
    let archiveUrl := urljoinBase href
    let t2 := rec_handle_pagination_tr site "Archive Section" fuel archiveUrl []
    (evs1 ++ Ev.fetchPage archiveUrl :: t2.events, t1.rows ++ t2.rows)
  | none => (evs1, t1.rows)

/-- rec_scraper.download_pdfs again, recording a downloadAsset event for every
actual network fetch. -/
def rec_download_pdfs_tr (net : Net) : FS → List RecRecord → FS × List Ev
  | fs, [] => (fs, [])
  | fs, row :: rest =>
    let step := rec_download_row net fs row.pdf_url row.local_pdf_path
    let evs0 : List Ev :=
      if step.netCalls == 0 then [] else [Ev.downloadAsset row.pdf_url]
    let r := rec_download_pdfs_tr net step.fs rest
    (r.1, evs0 ++ r.2)

/-- rec_scraper.run lines 174-184: scrape (pagination and extraction of every
page), then the download post-pass, then the unconditional CSV write. -/
def rec_run_trace (site : Site) (net : Net) (fuel : Nat) : List Ev :=
  let s := rec_scrape_main_and_archive site fuel
  let d := rec_download_pdfs_tr net [] s.2
  s.1 ++ d.2 ++ [Ev.writeCsv]

/-! ### auto_scraper: downloads happen inside the pagination loop -/

/-- One tbody tr of the auto_scraper tables: the stripped td texts and the
href of the first anchor in the download cell.  The remaining per-row strings
(subject, date, size text) do not influence any verified property and are
carried inside cells. -/
structure AutoRow where
  cells : List String
  dlHref : Option String
deriving DecidableEq

/-- A target page set for auto_scraper: the tbody rows of the matched table,
and the next pager link (pager absent, next link absent and absent href all
break the loop and are folded into none). -/
structure AutoSite where
  tableOf : Url → Option (List AutoRow)
  pagerNextOf : Url → Option String

/-- auto_scraper.parse_table lines 143-195, restricted to the state the claims
observe: rows with fewer than five cells are skipped; for each remaining row
the download link is resolved against the base URL and download_pdf runs
immediately, inside extraction; the filesystem threads through and one
downloadAsset event is recorded per actual network fetch. -/
def auto_parse_table_tr (net : Net) (listing_type : String) :
    FS → List AutoRow → FS × List Ev
  | fs, [] => (fs, [])
  | fs, tr :: rest =>
    if tr.cells.length < 5 then auto_parse_table_tr net listing_type fs rest
    else
      let memo_no := (tr.cells.get? 1).getD ""
      let pdf_url := match tr.dlHref with
        | some h => urljoinBase h
        | none => ""
      let step := auto_download_pdf net fs pdf_url memo_no listing_type
      let evs0 : List Ev :=
        if step.netCalls == 0 then [] else [Ev.downloadAsset pdf_url]
      let r := auto_parse_table_tr net listing_type step.fs rest
      (r.1, evs0 ++ r.2)

/-- auto_scraper.paginate_listing lines 197-237: VisitedSet at the top, a
safe_get of the current URL each iteration, parse_table (which downloads
inline), then the pager lookup with an extra next_url-in-visited check before
moving on. -/
def auto_paginate_listing_tr (net : Net) (site : AutoSite) (listing_type : String) :
    Nat → Url → List Url → FS → FS × List Ev
  | 0, _, _, fs => (fs, [])
  | fuel + 1, current, visited, fs =>
    if visited.contains current then (fs, [])
    else
      let p := match site.tableOf current with
        | none => (fs, ([] : List Ev))
        | some trs => auto_parse_table_tr net listing_type fs trs
      match site.pagerNextOf current with
      | none => (p.1, Ev.fetchPage current :: p.2)
      | some href =>
        let next_url := urljoinBase href
        if (current :: visited).contains next_url then
          (p.1, Ev.fetchPage current :: p.2)
        else
          let r := auto_paginate_listing_tr net site listing_type fuel next_url
            (current :: visited) p.1
          (r.1, Ev.fetchPage current :: p.2 ++ r.2)

/-! ### Concrete fixtures used by witnesses and counterexamples -/

/-- A network on which every fetch succeeds with status 200. -/
def netOkBody : Net := fun _ => FetchResult.ok 200 "BODY"

/-- A network on which every fetch yields HTTP 404. -/
def net404 : Net := fun _ => FetchResult.ok 404 "not found"

/-- Fixture for C8: a table whose header row yields no header cells, with one
five-cell body row. -/
def rtiNoHeaderTable : HtmlTable :=
  { headerCells := []
    bodyRows := [{ cells := ["1", "T", "5/2020", "dl", "extra"]
                   pdfHref := none
                   httpHref := none }] }

/-- Fixture for the C9 counterexample: a two-page listing in which each page
has one qualifying row with a PDF link, and page one points the pager at page
two. -/
def autoSiteCE : AutoSite :=
  { tableOf := fun u =>
      if u == "https://doe.gov.in/p1" then
        some [{ cells := ["1", "m1", "subj", "date", "dl"], dlHref := some "/f1.pdf" }]
      else if u == "https://doe.gov.in/p2" then
        some [{ cells := ["2", "m2", "subj", "date", "dl"], dlHref := some "/f2.pdf" }]
      else none
    pagerNextOf := fun u =>
      if u == "https://doe.gov.in/p1" then some "/p2" else none }

/-! ## Theorems -/

/-- C2: asset download is idempotent by destination filename.  The first call
fetches once and writes the body at the computed destination; a second call
with the same URL (hence the same destination path) finds the file, performs no
network call, and returns the same local path with the filesystem unchanged.
Translated from rec_scraper.download_pdfs lines 145-163. -/
theorem download_idempotent_by_destination (net : Net) (fs : FS) (url body : String)
    (hvalid : ((url != "") && strEndsWith (strToLower url) ".pdf") = true)
    (hfresh : fsExists fs (pathJoin PDF_DIR (recDestFilename url)) = false)
    (hnet : net url = FetchResult.ok 200 body) :
    rec_download_row net fs url "" =
      ⟨fsWrite fs (pathJoin PDF_DIR (recDestFilename url)) body,
        pathJoin PDF_DIR (recDestFilename url), 1⟩ ∧
    rec_download_row net
        (fsWrite fs (pathJoin PDF_DIR (recDestFilename url)) body) url "" =
      ⟨fsWrite fs (pathJoin PDF_DIR (recDestFilename url)) body,
        pathJoin PDF_DIR (recDestFilename url), 0⟩ := by
  refine ⟨?_, ?_⟩
  · simp [rec_download_row, hvalid, hfresh, hnet]
  · simp [rec_download_row, hvalid, fsExists, fsWrite]

/-- Witness for C2 at a concrete URL, network and empty filesystem. -/
theorem download_idempotent_by_destination_witness :
    rec_download_row netOkBody [] "https://doe.gov.in/files/a.pdf" "" =
      ⟨fsWrite []
        (pathJoin PDF_DIR (recDestFilename "https://doe.gov.in/files/a.pdf")) "BODY",
        pathJoin PDF_DIR (recDestFilename "https://doe.gov.in/files/a.pdf"), 1⟩ ∧
    rec_download_row netOkBody
        (fsWrite []
          (pathJoin PDF_DIR (recDestFilename "https://doe.gov.in/files/a.pdf")) "BODY")
        "https://doe.gov.in/files/a.pdf" "" =
      ⟨fsWrite []
        (pathJoin PDF_DIR (recDestFilename "https://doe.gov.in/files/a.pdf")) "BODY",
        pathJoin PDF_DIR (recDestFilename "https://doe.gov.in/files/a.pdf"), 0⟩ :=
  download_idempotent_by_destination netOkBody [] "https://doe.gov.in/files/a.pdf"
    "BODY" (by decide) (by decide) rfl

/-- C4 counterexample: rec_scraper.save_csv at zero collected records still
produces an output file (a header-only CSV), so the zero-record skip does not
hold for every scraper save step. -/
theorem rec_save_csv_writes_on_zero_records :
    rec_save_csv [] = some (recMETA_FIELDS, []) := rfl

/-- C4 amended: the OCAC-style save (ocac, pfd, fcd, ajnifm, auto, proc,
summary) skips the write with a notice when zero records were produced, but the
rec-style save (rec, grants, annualrep, manuals, rti) writes unconditionally,
producing a header-only file on an empty run. -/
theorem zero_records_save_behavior :
    (∀ th : List String, ocac_save th [] = none) ∧
    (∀ rows : List PyRow, (rec_save_csv rows).isSome = true) :=
  ⟨fun _ => rfl, fun _ => rfl⟩

/-- C5 counterexample: a non-timeout navigation error raised by driver.get is
not caught by safe_get (only TimeoutException is), so the fetcher can raise to
its caller. -/
theorem safe_get_raises_on_navigation_error :
    ocac_safe_get NavOutcome.otherError true true =
      { raised := true, stopCalled := false } := rfl

/-- C5 amended: safe_get swallows navigation timeouts, recovering by cancelling
the load via window.stop() and accepting the partial document, and readiness
or content-wait timeouts never raise either; but only TimeoutException is
caught around driver.get, so other navigation errors propagate. -/
theorem safe_get_swallows_timeouts (readyReached contentFound : Bool) :
    ocac_safe_get NavOutcome.timeout readyReached contentFound =
      { raised := false, stopCalled := true } ∧
    ocac_safe_get NavOutcome.success readyReached contentFound =
      { raised := false, stopCalled := false } :=
  ⟨rfl, rfl⟩

/-- C6: when the asset fetch fails (transport error, or a non-success status),
the downloader returns an empty local path, writes nothing to the destination,
and processing of the remaining rows continues from an unchanged filesystem.
Covers rec_scraper.download_pdfs (status 200 check) and
proc_scraper.download_pdf (raise_for_status). -/
theorem download_failure_nonfatal (net : Net) (fs : FS) (url pre : String)
    (rest : List RecDlRow)
    (hvalid : ((url != "") && strEndsWith (strToLower url) ".pdf") = true)
    (hfresh : fsExists fs (pathJoin PDF_DIR (recDestFilename url)) = false)
    (hfreshp : fsExists fs (pathJoin PDF_DIR (proc_base_name url pre)) = false)
    (hfail : net url = FetchResult.err ∨
      ∃ status body, net url = FetchResult.ok status body ∧ status ≠ 200 ∧
        400 ≤ status ∧ status < 600) :
    rec_download_row net fs url "" = ⟨fs, "", 1⟩ ∧
    proc_download_pdf net fs url pre = ⟨fs, "", 1⟩ ∧
    rec_download_pdfs net fs ({ pdf_url := url, local_pdf_path := "" } :: rest) =
      ((rec_download_pdfs net fs rest).1,
        { pdf_url := url, local_pdf_path := "" } ::
          (rec_download_pdfs net fs rest).2.1,
        1 + (rec_download_pdfs net fs rest).2.2) := by
  have hrec : rec_download_row net fs url "" = ⟨fs, "", 1⟩ := by
    rcases hfail with h | ⟨status, body, hnet, hne, _, _⟩
    · simp [rec_download_row, hvalid, hfresh, h]
    · simp [rec_download_row, hvalid, hfresh, hnet, hne]
  have hproc : proc_download_pdf net fs url pre = ⟨fs, "", 1⟩ := by
    rcases hfail with h | ⟨status, body, hnet, _, h4, h6⟩
    · simp [proc_download_pdf, hfreshp, h]
    · simp [proc_download_pdf, hfreshp, hnet, h4, h6]
  refine ⟨hrec, hproc, ?_⟩
  simp [rec_download_pdfs, hrec]

/-- Witness for C6: a 404 network, a fresh filesystem, one further row after
the failing one. -/
theorem download_failure_nonfatal_witness :
    rec_download_row net404 [] "https://doe.gov.in/a.pdf" "" = ⟨[], "", 1⟩ ∧
    proc_download_pdf net404 [] "https://doe.gov.in/a.pdf" "p" = ⟨[], "", 1⟩ ∧
    rec_download_pdfs net404 []
        ({ pdf_url := "https://doe.gov.in/a.pdf", local_pdf_path := "" } ::
          [{ pdf_url := "", local_pdf_path := "" }]) =
      ((rec_download_pdfs net404 [] [{ pdf_url := "", local_pdf_path := "" }]).1,
        { pdf_url := "https://doe.gov.in/a.pdf", local_pdf_path := "" } ::
          (rec_download_pdfs net404 [] [{ pdf_url := "", local_pdf_path := "" }]).2.1,
        1 + (rec_download_pdfs net404 []
          [{ pdf_url := "", local_pdf_path := "" }]).2.2) :=
  download_failure_nonfatal net404 [] "https://doe.gov.in/a.pdf" "p"
    [{ pdf_url := "", local_pdf_path := "" }] (by decide) (by decide) (by decide)
    (Or.inr ⟨404, "not found", rfl, by decide, by decide, by decide⟩)

/-- C10: the destination filename is computed only from the basename of the
query-stripped URL, so two rows whose asset URLs differ but share that basename
alias to one file: the run fetches only the first URL, and the second row is
assigned the same existing local path with no further network call; the stored
body is the one fetched from the first URL.  Translated from
rec_scraper.download_pdfs lines 145-163 (manuals_scraper.download_pdfs lines
94-111 is identical). -/
theorem same_basename_aliasing (net : Net) (u1 u2 body1 : String)
    (h1 : ((u1 != "") && strEndsWith (strToLower u1) ".pdf") = true)
    (h2 : ((u2 != "") && strEndsWith (strToLower u2) ".pdf") = true)
    (hdiff : u1 ≠ u2)
    (hbase : recDestFilename u1 = recDestFilename u2)
    (hnet : net u1 = FetchResult.ok 200 body1) :
    recDestFilename u1 = basename (stripQuery u1) ∧
    rec_download_pdfs net []
        [{ pdf_url := u1, local_pdf_path := "" },
         { pdf_url := u2, local_pdf_path := "" }] =
      ([(pathJoin PDF_DIR (recDestFilename u1), body1)],
       [{ pdf_url := u1, local_pdf_path := pathJoin PDF_DIR (recDestFilename u1) },
        { pdf_url := u2, local_pdf_path := pathJoin PDF_DIR (recDestFilename u1) }],
       1) := by
  have _ := hdiff
  refine ⟨rfl, ?_⟩
  have e2 : pathJoin PDF_DIR (recDestFilename u2) =
      pathJoin PDF_DIR (recDestFilename u1) := by rw [hbase]
  have s1 : rec_download_row net [] u1 "" =
      ⟨[(pathJoin PDF_DIR (recDestFilename u1), body1)],
        pathJoin PDF_DIR (recDestFilename u1), 1⟩ := by
    simp [rec_download_row, h1, hnet, fsExists, fsWrite]
  have s2 : rec_download_row net
      [(pathJoin PDF_DIR (recDestFilename u1), body1)] u2 "" =
      ⟨[(pathJoin PDF_DIR (recDestFilename u1), body1)],
        pathJoin PDF_DIR (recDestFilename u1), 0⟩ := by
    simp [rec_download_row, h2, e2, fsExists]
  simp [rec_download_pdfs, s1, s2]

/-- Witness for C10: two URLs differing in directory and query string but with
path basename file.pdf; only the first is fetched and both rows point at the
one stored file. -/
theorem same_basename_aliasing_witness :
    recDestFilename "https://doe.gov.in/x/file.pdf?v=old.pdf" =
      basename (stripQuery "https://doe.gov.in/x/file.pdf?v=old.pdf") ∧
    rec_download_pdfs netOkBody []
        [{ pdf_url := "https://doe.gov.in/x/file.pdf?v=old.pdf", local_pdf_path := "" },
         { pdf_url := "https://doe.gov.in/y/file.pdf", local_pdf_path := "" }] =
      ([(pathJoin PDF_DIR
          (recDestFilename "https://doe.gov.in/x/file.pdf?v=old.pdf"), "BODY")],
       [{ pdf_url := "https://doe.gov.in/x/file.pdf?v=old.pdf",
          local_pdf_path := pathJoin PDF_DIR
            (recDestFilename "https://doe.gov.in/x/file.pdf?v=old.pdf") },
        { pdf_url := "https://doe.gov.in/y/file.pdf",
          local_pdf_path := pathJoin PDF_DIR
            (recDestFilename "https://doe.gov.in/x/file.pdf?v=old.pdf") }],
       1) :=
  same_basename_aliasing netOkBody "https://doe.gov.in/x/file.pdf?v=old.pdf"
    "https://doe.gov.in/y/file.pdf" "BODY" (by decide) (by decide) (by decide)
    (by decide) rfl

/-- Helper: a field name stored nowhere in a row renders as the empty value. -/
theorem fieldVal_absent (r : PyRow) (c : String)
    (h : r.all (fun p => p.1 != c) = true) : fieldVal r c = "" := by
  unfold fieldVal
  cases hf : r.reverse.find? (fun p => p.1 == c) with
  | none => rfl
  | some q =>
    exfalso
    have hmem := List.mem_of_find?_eq_some hf
    have hpred := List.find?_some hf
    rw [List.mem_reverse] at hmem
    have hall := (List.all_eq_true.mp h) q hmem
    simp only [bne_iff_ne, ne_eq] at hall
    exact hall (by simpa using hpred)

/-- C3: for every non-empty record set the ResultSink write yields a table in
which every data row has exactly the same number of cells as the header, the
columns are ordered as fixed leading metadata, then the page-specific headers,
then the fixed trailing url and asset fields, and a field absent from a record
is rendered as an empty cell rather than omitted.  Translated from
ocac_scraper.save lines 289-324 (identical in pfd_scraper.save). -/
theorem schema_union_invariant (th : List String) (rows : List PyRow)
    (r0 : PyRow) (c0 : String) (rowOut : List String)
    (hne : rows ≠ [])
    (hrow : rowOut ∈ rows.map (fun r => (ocacFinalCols th).map (fun c => fieldVal r c)))
    (habsent : r0.all (fun p => p.1 != c0) = true) :
    ocac_save th rows = some (ocacFinalCols th,
      rows.map (fun r => (ocacFinalCols th).map (fun c => fieldVal r c))) ∧
    ocacFinalCols th = ocacMetaLeft ++ th ++ ocacMetaRight ∧
    rowOut.length = (ocacFinalCols th).length ∧
    fieldVal r0 c0 = "" := by
  refine ⟨?_, rfl, ?_, fieldVal_absent r0 c0 habsent⟩
  · rcases rows with _ | ⟨r, rs⟩
    · exact absurd rfl hne
    · rfl
  · rcases List.mem_map.mp hrow with ⟨r, _, rfl⟩
    exact List.length_map _ _

/-- Witness for C3: two heterogeneous rows, one carrying the page-specific
field Extra and one without it; both rendered rows have eleven cells and the
missing fields come out empty. -/
theorem schema_union_invariant_witness :
    ocac_save ["Extra"]
        [[("section_type", "Table"), ("Extra", "e")], [("title", "x")]] =
      some (ocacFinalCols ["Extra"],
        [[("section_type", "Table"), ("Extra", "e")], [("title", "x")]].map
          (fun r => (ocacFinalCols ["Extra"]).map (fun c => fieldVal r c))) ∧
    ocacFinalCols ["Extra"] = ocacMetaLeft ++ ["Extra"] ++ ocacMetaRight ∧
    ((ocacFinalCols ["Extra"]).map
        (fun c => fieldVal [("section_type", "Table"), ("Extra", "e")] c)).length =
      (ocacFinalCols ["Extra"]).length ∧
    fieldVal [("title", "x")] "Extra" = "" :=
  schema_union_invariant ["Extra"]
    [[("section_type", "Table"), ("Extra", "e")], [("title", "x")]]
    [("title", "x")] "Extra"
    ((ocacFinalCols ["Extra"]).map
      (fun c => fieldVal [("section_type", "Table"), ("Extra", "e")] c))
    (by decide) (by simp) (by decide)

/-- Unfolding equation for the candidate text-length maximum. -/
theorem maxTextLen_cons (c : Container) (cs : List Container) :
    maxTextLen (c :: cs) = max c.text.length (maxTextLen cs) := rfl

/-- Helper: the accumulator fold inside find_main_content returns the first
candidate whose text length attains the maximum, provided that maximum exceeds
the incoming best length, and leaves the accumulator untouched otherwise. -/
theorem fmcFold_spec (cs : List Container) (acc : Option Container) (bl : Nat) :
    cs.foldl fmcStep (acc, bl) =
      if maxTextLen cs ≤ bl then (acc, bl)
      else (cs.find? (fun c => c.text.length == maxTextLen cs), maxTextLen cs) := by
  induction cs generalizing acc bl with
  | nil => simp [maxTextLen]
  | cons c cs ih =>
    rw [List.foldl_cons]
    have hTl : c.text.length ≤ maxTextLen (c :: cs) := by
      rw [maxTextLen_cons]; exact le_max_left _ _
    have hTr : maxTextLen cs ≤ maxTextLen (c :: cs) := by
      rw [maxTextLen_cons]; exact le_max_right _ _
    have hT : maxTextLen (c :: cs) = c.text.length ∨
        maxTextLen (c :: cs) = maxTextLen cs := by
      rw [maxTextLen_cons]; exact max_choice _ _
    by_cases hc : c.text ≠ "" ∧ bl < c.text.length
    · have hstep : fmcStep (acc, bl) c = (some c, c.text.length) := by
        simp only [fmcStep]
        exact if_pos hc
      rw [hstep, ih]
      by_cases h2 : maxTextLen cs ≤ c.text.length
      · have hmax : maxTextLen (c :: cs) = c.text.length := by
          rcases hT with h | h <;> omega
        rw [if_pos h2, hmax, if_neg (show ¬ c.text.length ≤ bl by omega),
          List.find?_cons_of_pos _ (by simp)]
      · push_neg at h2
        have hmax : maxTextLen (c :: cs) = maxTextLen cs := by
          rcases hT with h | h <;> omega
        rw [if_neg (by omega), hmax,
          if_neg (show ¬ maxTextLen cs ≤ bl by omega),
          List.find?_cons_of_neg _ (by simp; omega)]
    · have hL : c.text.length ≤ bl := by
        by_cases he : c.text = ""
        · have h0 : c.text.length = 0 := by rw [he]; decide
          omega
        · push_neg at hc
          exact hc he
      have hstep : fmcStep (acc, bl) c = (acc, bl) := by
        simp only [fmcStep]
        exact if_neg hc
      rw [hstep, ih]
      by_cases h2 : maxTextLen cs ≤ bl
      · rw [if_pos h2, if_pos (show maxTextLen (c :: cs) ≤ bl by
          rcases hT with h | h <;> omega)]
      · push_neg at h2
        have hmax : maxTextLen (c :: cs) = maxTextLen cs := by
          rcases hT with h | h <;> omega
        rw [if_neg (by omega), hmax,
          if_neg (show ¬ maxTextLen cs ≤ bl by omega),
          List.find?_cons_of_neg _ (by simp; omega)]

/-- C7: narrative-mode container selection.  Among all elements matched by the
ordered candidate selectors (their select results concatenated in selector
order), find_main_content returns the first candidate whose extracted text
length attains the maximum - so a longer container always beats a shorter one,
ties keep the earlier candidate, and when every candidate has empty text
nothing is selected.  Translated from ocac_scraper.find_main_content lines
174-204. -/
theorem narrative_best_container (candLists : List (List Container)) :
    find_main_content candLists =
      if maxTextLen candLists.flatten = 0 then none
      else candLists.flatten.find?
        (fun c => c.text.length == maxTextLen candLists.flatten) := by
  unfold find_main_content
  rw [fmcFold_spec]
  by_cases h : maxTextLen candLists.flatten = 0
  · simp [h]
  · rw [if_neg (by omega), if_neg h]

/-- Helper: a filterMap that skips exactly the rows failing a guard emits one
element per passing row. -/
theorem length_filterMap_guard {α β : Type} (p : α → Bool) (g : α → β)
    (l : List α) :
    (l.filterMap (fun a => if p a then none else some (g a))).length =
      (l.filter (fun a => !p a)).length := by
  induction l with
  | nil => rfl
  | cons a l ih =>
    by_cases h : p a <;> simp [h, ih]

/-- Helper: with the rec_scraper fallback headers, the Title column is by
construction the second cell, so the title of any row with at least two cells
is that cell. -/
theorem rec_row_title_two_cells (c0 c1 : String) (cs2 : List String) :
    rec_row_title recDefaultHeaders (c0 :: c1 :: cs2) = c1 := by
  have hd : dictZipGet recDefaultHeaders (c0 :: c1 :: cs2) "Title" = c1 := by
    rcases cs2 with _ | ⟨d, cs2⟩
    · rfl
    rcases cs2 with _ | ⟨e, cs2⟩
    · rfl
    · rfl
  simp only [rec_row_title, hd]
  split
  · rfl
  · rfl

/-- C8 counterexample: rti_scraper.extract_table, one of the two cited tabular
extractors, falls back to a five-element header list ending in Hyperlink, not
to the fixed four-element set of the claim: on a concrete headerless table its
emitted content string zips five headers against the cells. -/
theorem rti_fallback_has_five_headers :
    rtiHeadersFor rtiNoHeaderTable = rtiDefaultHeaders ∧
    rtiDefaultHeaders ≠ recDefaultHeaders ∧
    (rti_extract_table (some rtiNoHeaderTable) "RTI Table Section" "u").map
        (fun r => r.content) =
      ["Sr.No: 1 | Title: T | Date: 5/2020 | Download: dl | Hyperlink: extra"] :=
  ⟨rfl, by decide, rfl⟩

/-- C8 amended: on a table whose header row yields no header cells,
rec_scraper.extract_table (and manuals_scraper) falls back to the fixed header
set Sr.No, Title, Date, Download, while rti_scraper falls back to that set
plus a fifth Hyperlink column; body cells are zipped positionally against the
fallback headers without raising (one record per non-empty row, zip truncating
at the shorter side), and the derived title prefers the Title column, which
under the fallback is the second cell, and degrades to Untitled when a second
cell does not exist. -/
theorem tabular_fallback (t : HtmlTable) (s u c0 c1 : String) (cs2 : List String)
    (h : t.headerCells = []) :
    recHeadersFor t = recDefaultHeaders ∧
    rtiHeadersFor t = rtiDefaultHeaders ∧
    (rec_extract_table (some t) s u).length =
      (t.bodyRows.filter (fun tr => !tr.cells.isEmpty)).length ∧
    rec_row_title recDefaultHeaders (c0 :: c1 :: cs2) = c1 ∧
    rec_row_title recDefaultHeaders [c0] = "Untitled" ∧
    rec_row_title recDefaultHeaders [] = "Untitled" := by
  have hh : recHeadersFor t = recDefaultHeaders := by
    simp [recHeadersFor, h]
  refine ⟨hh, by simp [rtiHeadersFor, h], ?_,
    rec_row_title_two_cells c0 c1 cs2, rfl, rfl⟩
  show (rec_extract_table (some t) s u).length = _
  simp only [rec_extract_table]
  exact length_filterMap_guard (fun tr => tr.cells.isEmpty) _ t.bodyRows

/-- Witness for C8 at the concrete headerless table and concrete cells. -/
theorem tabular_fallback_witness :
    recHeadersFor rtiNoHeaderTable = recDefaultHeaders ∧
    rtiHeadersFor rtiNoHeaderTable = rtiDefaultHeaders ∧
    (rec_extract_table (some rtiNoHeaderTable) "Main Section" "u").length =
      (rtiNoHeaderTable.bodyRows.filter (fun tr => !tr.cells.isEmpty)).length ∧
    rec_row_title recDefaultHeaders ("1" :: "T" :: ["5/2020"]) = "T" ∧
    rec_row_title recDefaultHeaders ["1"] = "Untitled" ∧
    rec_row_title recDefaultHeaders [] = "Untitled" :=
  tabular_fallback rtiNoHeaderTable "Main Section" "u" "1" "T" ["5/2020"] rfl

/-- Helper: against the constantly re-offering pager, the grants-style loop
performs one fetch per iteration and never reaches a break, for any amount of
fuel. -/
theorem grants_reoffer_runs_forever (u0 : Url) (fuel : Nat) :
    grants_handle_pagination (reofferSite u0) fuel u0 =
      ⟨List.replicate fuel u0, fuel, false⟩ := by
  induction fuel with
  | zero => rfl
  | succ n ih =>
    simp only [reofferSite] at ih ⊢
    simp [grants_handle_pagination, ih, List.replicate]

/-- C1 counterexample: grants_scraper.handle_pagination has no VisitedSet;
driven against the synthetic pager that always re-offers the same URL it has
performed ten fetches after ten loop iterations and still has not stopped, so
the one-extra-fetch cycle termination does not hold for every scraper
pagination loop. -/
theorem grants_pagination_never_stops_on_reoffer :
    grants_handle_pagination
        (reofferSite "https://doe.gov.in/detailed-demands-for-grants") 10
        "https://doe.gov.in/detailed-demands-for-grants" =
      ⟨List.replicate 10 "https://doe.gov.in/detailed-demands-for-grants",
        10, false⟩ := by
  decide

/-- C1 amended: the VisitedSet-guarded loops (rec_scraper, manuals_scraper,
rti_scraper) do terminate against the always-re-offering pager after exactly
one extra fetch, detecting the revisited URL at the top of the loop; but this
does not hold for every scraper pagination loop: grants_scraper (with
annualrep_scraper and summary_scraper) has no VisitedSet and keeps fetching for
as long as it is allowed to run. -/
theorem paginator_cycle_guard (u0 : Url) (fuel : Nat) (h0 : u0 ≠ "")
    (hf : 2 ≤ fuel) :
    rec_handle_pagination (reofferSite u0) fuel u0 [] = ⟨[u0], 1, true⟩ ∧
    grants_handle_pagination (reofferSite u0) fuel u0 =
      ⟨List.replicate fuel u0, fuel, false⟩ := by
  constructor
  · obtain ⟨n, rfl⟩ : ∃ n, fuel = n + 2 := ⟨fuel - 2, by omega⟩
    have hbe : (u0 == "") = false := by simp [h0]
    simp [rec_handle_pagination, reofferSite, hbe]
  · exact grants_reoffer_runs_forever u0 fuel

/-- Witness for C1 at a concrete start URL and fuel five. -/
theorem paginator_cycle_guard_witness :
    rec_handle_pagination (reofferSite "https://doe.gov.in/recruitment-rules") 5
        "https://doe.gov.in/recruitment-rules" [] =
      ⟨["https://doe.gov.in/recruitment-rules"], 1, true⟩ ∧
    grants_handle_pagination (reofferSite "https://doe.gov.in/recruitment-rules") 5
        "https://doe.gov.in/recruitment-rules" =
      ⟨List.replicate 5 "https://doe.gov.in/recruitment-rules", 5, false⟩ :=
  paginator_cycle_guard "https://doe.gov.in/recruitment-rules" 5 (by decide)
    (by decide)

/-- Helper: every event recorded inside the rec_scraper pagination loop is a
page fetch. -/
theorem rec_pag_tr_events_fetch (site : Site) (sec : String) (fuel : Nat) :
    ∀ current visited,
      ∀ e ∈ (rec_handle_pagination_tr site sec fuel current visited).events,
        ∃ u, e = Ev.fetchPage u := by
  induction fuel with
  | zero =>
    intro current visited e he
    simp [rec_handle_pagination_tr] at he
  | succ n ih =>
    intro current visited e he
    simp only [rec_handle_pagination_tr] at he
    split at he
    · simp at he
    · split at he
      · simp at he
      · split at he
        · simp at he
        · split at he
          · simp at he
          · simp only [List.mem_cons] at he
            rcases he with rfl | he
            · exact ⟨_, rfl⟩
            · exact ih _ _ e he

/-- Helper: every event recorded by the rec_scraper scrape step (main section
plus optional archive section) is a page fetch. -/
theorem rec_scrape_events_fetch (site : Site) (fuel : Nat) :
    ∀ e ∈ (rec_scrape_main_and_archive site fuel).1, ∃ u, e = Ev.fetchPage u := by
  intro e he
  simp only [rec_scrape_main_and_archive] at he
  cases ha : site.archiveOf
      (rec_handle_pagination_tr site "Main Section" fuel
        (urljoinBase recPAGE_PATH) []).finalUrl with
  | none =>
    rw [ha] at he
    simp only [List.mem_cons] at he
    rcases he with rfl | he
    · exact ⟨_, rfl⟩
    · exact rec_pag_tr_events_fetch site "Main Section" fuel _ [] e he
  | some href =>
    rw [ha] at he
    simp only [List.mem_append, List.mem_cons] at he
    rcases he with (rfl | he) | rfl | he
    · exact ⟨_, rfl⟩
    · exact rec_pag_tr_events_fetch site "Main Section" fuel _ [] e he
    · exact ⟨_, rfl⟩
    · exact rec_pag_tr_events_fetch site "Archive Section" fuel _ [] e he

/-- Helper: every event recorded by the rec_scraper download pass is an asset
download. -/
theorem rec_dl_tr_events_download (net : Net) (rows : List RecRecord) :
    ∀ fs, ∀ e ∈ (rec_download_pdfs_tr net fs rows).2, ∃ u, e = Ev.downloadAsset u := by
  induction rows with
  | nil =>
    intro fs e he
    simp [rec_download_pdfs_tr] at he
  | cons row rest ih =>
    intro fs e he
    simp only [rec_download_pdfs_tr, List.mem_append] at he
    rcases he with he | he
    · by_cases h : (rec_download_row net fs row.pdf_url row.local_pdf_path).netCalls == 0
      · simp [h] at he
      · simp only [h, if_neg] at he
        simp at he
        exact ⟨row.pdf_url, he⟩
    · exact ih _ e he

/-- C9 amended: for the rec-style scrapers the asset pass really is a
post-pass: every run trace splits at an index before which no asset download
occurs (the pagination and extraction fetches) and after which no page fetch
occurs, and the CSV write is the final event.  The two cited table scrapers
auto_scraper and proc_scraper do not follow this shape: they download inside
extraction, during pagination. -/
theorem downloads_are_post_pass (site : Site) (net : Net) (fuel : Nat) :
    ∃ k, (∀ e ∈ (rec_run_trace site net fuel).take k, ∀ u, e ≠ Ev.downloadAsset u) ∧
      (∀ e ∈ (rec_run_trace site net fuel).drop k, ∀ u, e ≠ Ev.fetchPage u) ∧
      (rec_run_trace site net fuel).getLast? = some Ev.writeCsv := by
  refine ⟨(rec_scrape_main_and_archive site fuel).1.length, ?_, ?_, ?_⟩
  · intro e he u
    rw [rec_run_trace, List.append_assoc, List.take_left] at he
    rcases rec_scrape_events_fetch site fuel e he with ⟨v, rfl⟩
    simp
  · intro e he u
    rw [rec_run_trace, List.append_assoc, List.drop_left] at he
    rw [List.mem_append] at he
    rcases he with he | he
    · rcases rec_dl_tr_events_download net
        (rec_scrape_main_and_archive site fuel).2 [] e he with ⟨v, rfl⟩
      simp
    · simp only [List.mem_singleton] at he
      subst he
      simp
  · rw [rec_run_trace]
    exact List.getLast?_concat _

/-- C9 counterexample: auto_scraper downloads each row asset inside
parse_table, during pagination: on the concrete two-page listing the first
asset download happens before the second page is fetched, so downloading is
not a post-pass over all discovered file URLs in every run. -/
theorem auto_downloads_during_pagination :
    (auto_paginate_listing_tr netOkBody autoSiteCE "Active" 5
        "https://doe.gov.in/p1" [] []).2 =
      [Ev.fetchPage "https://doe.gov.in/p1",
       Ev.downloadAsset "https://doe.gov.in/f1.pdf",
       Ev.fetchPage "https://doe.gov.in/p2",
       Ev.downloadAsset "https://doe.gov.in/f2.pdf"] := by
  decide

end MOFDOE
